import Mathlib

/- Verification of the Strix pre-flight pipeline
   (`strix/interface/main.py`, `strix/interface/config_manager.py`,
   `strix/interface/menu.py`) against its natural-language specification.

   The on-disk `.env` file and parsed Python dicts are modelled as ordered
   association lists of key/value pairs.  The process environment is a total
   function from variable name to value, with `""` standing for an unset
   variable (Python's `os.getenv` returns `None` for those, and every use
   site in the code only tests truthiness, which identifies `None` and `""`).
   Effectful pipeline stages are modelled as functions producing an explicit
   event trace plus the exit code of the process. -/

/-! ## Association lists: shared dict / dotenv-file semantics -/

/-- First-occurrence lookup in an association list. -/
def lookup : List (String × String) → String → Option String
  | [], _ => none
  | kv :: t, k => if kv.1 = k then some kv.2 else lookup t k

/-- The keys of an association list, in order. -/
def keys (d : List (String × String)) : List String := d.map Prod.fst

/-- Last-occurrence lookup: the binding that wins when the list is read into
a Python dict (later duplicates override earlier ones). -/
def getLast : List (String × String) → String → Option String
  | [], _ => none
  | kv :: t, k =>
    match getLast t k with
    | some v => some v
    | none => if kv.1 = k then some kv.2 else none

/-- Shared semantics of `dotenv.set_key` on the `.env` file and of a Python
dict insertion `d[k] = v`: when the key is already present its value is
replaced in place (the position of the binding is kept), otherwise the pair
is appended at the end. -/
def upsert (d : List (String × String)) (k v : String) : List (String × String) :=
  if k ∈ keys d then d.map (fun kv => if kv.1 = k then (k, v) else kv)
  else d ++ [(k, v)]

/-! ## ConfigManager (`strix/interface/config_manager.py`) -/

/-- `ConfigManager.load_config`: `dotenv_values` parses the file into a dict;
for duplicate keys the later value overrides, the first position is kept.
(The `None`-filter of the Python code is vacuous in this model, where every
parsed line carries a string value.) -/
def load_config (file : List (String × String)) : List (String × String) :=
  file.foldl (fun d kv => upsert d kv.1 kv.2) []

/-- `ConfigManager.save_config`: `set_key` is applied to the existing file
once per key/value pair of `config`, in iteration order.  The file is not
truncated first, so pairs absent from `config` stay in the file. -/
def save_config (file config : List (String × String)) : List (String × String) :=
  config.foldl (fun f kv => upsert f kv.1 kv.2) file

/-- Python `dict.update`: fold the updates into the dict. -/
def dict_update (d updates : List (String × String)) : List (String × String) :=
  updates.foldl (fun acc kv => upsert acc kv.1 kv.2) d

/-- `ConfigManager.update_config`: load the record, merge the updates into
it, and save the merged dict back. -/
def update_config (file updates : List (String × String)) : List (String × String) :=
  save_config file (dict_update (load_config file) updates)

/-- `ConfigManager.get_value` with its default `""`. -/
def get_value (file : List (String × String)) (key : String) : String :=
  match lookup (load_config file) key with
  | some v => v
  | none => ""

/-- Updating one variable of the process environment (`os.environ[k] = v`). -/
def update_env (e : String → String) (k v : String) : String → String :=
  fun q => if q = k then v else e q

/-- `ConfigManager.apply_to_environment`: every pair of the loaded record is
copied into the process environment, but only when its value is non-empty. -/
def apply_to_environment (file : List (String × String)) (env : String → String) :
    String → String :=
  (load_config file).foldl (fun e kv => if kv.2 ≠ "" then update_env e kv.1 kv.2 else e) env

/-- Spec-side definition for claim C5: the merge of record `R` with partial
update `P`, read at key `k` — every key of `P` maps to its value in `P`, and
every other key keeps its value in `R`. -/
def merged_lookup (R P : List (String × String)) (k : String) : Option String :=
  match getLast P k with
  | some v => some v
  | none => lookup R k

/-! ## Environment validation (`validate_environment` in `main.py`) -/

/-- The `has_base_url` test of `validate_environment`: true when at least one
of the four endpoint-override variables is non-empty. -/
def has_base_url (env : String → String) : Bool :=
  (env "LLM_API_BASE" != "") || (env "OPENAI_API_BASE" != "") ||
    (env "LITELLM_BASE_URL" != "") || (env "OLLAMA_API_BASE" != "")

/-- Result of `validate_environment`: the two lists it accumulates. -/
structure ValidationResult where
  missing_required : List String
  missing_optional : List String
  deriving Repr, DecidableEq

/-- `validate_environment` from `main.py`: STRIX_LLM is always required;
LLM_API_KEY is required without a base-url override and optional with one;
LLM_API_BASE is listed as missing-optional without an override;
PERPLEXITY_API_KEY is optional.  The appends follow the statement order of
the Python code. -/
def validate_environment (env : String → String) : ValidationResult :=
  let mr0 : List String := if env "STRIX_LLM" = "" then ["STRIX_LLM"] else []
  let hb := has_base_url env
  let mr1 := if env "LLM_API_KEY" = "" ∧ hb = false then mr0 ++ ["LLM_API_KEY"] else mr0
  let mo1 : List String := if env "LLM_API_KEY" = "" ∧ hb = true then ["LLM_API_KEY"] else []
  let mo2 := if hb = false then mo1 ++ ["LLM_API_BASE"] else mo1
  let mo3 := if env "PERPLEXITY_API_KEY" = "" then mo2 ++ ["PERPLEXITY_API_KEY"] else mo2
  { missing_required := mr1, missing_optional := mo3 }

/-- `validate_environment` calls `sys.exit(1)` exactly when the list of
missing required variables is non-empty. -/
def validate_exits (env : String → String) : Bool :=
  !(validate_environment env).missing_required.isEmpty

/-! ## Warm-up endpoint selection (`warm_up_llm` in `main.py`) -/

/-- Python `a or b` on strings where falsy means empty. -/
def or_str (a b : String) : String := if a = "" then b else a

/-- The `api_base` expression of `warm_up_llm`: the four override variables
chained with `or` in the order written in the code. -/
def warm_up_api_base (env : String → String) : String :=
  or_str (env "LLM_API_BASE")
    (or_str (env "OPENAI_API_BASE")
      (or_str (env "LITELLM_BASE_URL") (env "OLLAMA_API_BASE")))

/-- The endpoint actually applied to `litellm.api_base`: the code assigns it
only when the chained value is truthy, so `none` models "left untouched". -/
def applied_api_base (env : String → String) : Option String :=
  if warm_up_api_base env = "" then none else some (warm_up_api_base env)

/-- Spec-side definition for claim C8: the first non-empty string of a list,
if any. -/
def first_nonempty : List String → Option String
  | [] => none
  | s :: t => if s = "" then first_nonempty t else some s

/-! ## Pipeline model (`main` in `main.py`) -/

/-- Observable effects of one run, in program order. -/
inductive Event where
  | dockerCliCheck
  | dockerConnect
  | imageExistsCheck
  | progressState
  | pullStream
  | credentialValidation
  | llmRequest
  | cloneRepo (url : String)
  | scanEngine
  deriving Repr, DecidableEq

/-- Pipeline stage an event belongs to: 0 container-engine availability,
1 image provisioning, 2 credential validation, 3 warm-up probe, 4 repository
cloning, 5 scan engine. -/
def stage : Event → Nat
  | .dockerCliCheck => 0
  | .dockerConnect => 0
  | .imageExistsCheck => 1
  | .progressState => 1
  | .pullStream => 1
  | .credentialValidation => 2
  | .llmRequest => 3
  | .cloneRepo _ => 4
  | .scanEngine => 5

/-- The two read-only fields of the global tracer consumed by `main`. -/
structure Tracer where
  vulnerability_reports : List String
  scan_completed : Bool
  deriving Repr, DecidableEq

/-- External state a run executes against. -/
structure World where
  env : String → String
  dockerInstalled : Bool
  engineReachable : Bool
  imagePresent : Bool
  pullSucceeds : Bool
  llmOk : Bool
  cloneSucceeds : Bool
  tracer : Option Tracer

/-- One entry of `args.targets_info`. -/
structure TargetInfo where
  ttype : String
  target_repo : String
  deriving Repr, DecidableEq

/-- The parsed arguments `main` consumes. -/
structure Args where
  targets_info : List TargetInfo
  non_interactive : Bool
  deriving Repr, DecidableEq

/-- Clone URLs of the targets whose type is `"repository"`, in order. -/
def repo_urls (args : Args) : List String :=
  (args.targets_info.filter (fun t => t.ttype = "repository")).map (fun t => t.target_repo)

/-- The findings visible to `main` after the engine returns: the tracer's
`vulnerability_reports`, empty when no tracer exists. -/
def findings (w : World) : List String :=
  match w.tracer with
  | some t => t.vulnerability_reports
  | none => []

/-- Modelled from the spec: `check_docker_connection` lives in
`strix/interface/utils.py`, which is not under `src/`.  Per spec section 4.7
and the error taxonomy, the container-engine availability gate aborts the
process with exit code 1 when the engine is unreachable. -/
def check_docker_connection_model (reachable : Bool) : Option Nat :=
  if reachable then none else some 1

/-- `pull_docker_image` from `main.py`: connect to the engine, check local
image existence, and return at once when the image is present; otherwise
create the pull-progress state (`layers_info` plus the status spinner), open
the streaming pull, and exit 1 when the pull fails. -/
def pull_docker_image_model (w : World) : List Event × Option Nat :=
  match check_docker_connection_model w.engineReachable with
  | some c => ([Event.dockerConnect], some c)
  | none =>
    if w.imagePresent then ([Event.dockerConnect, Event.imageExistsCheck], none)
    else
      let t := [Event.dockerConnect, Event.imageExistsCheck,
        Event.progressState, Event.pullStream]
      if w.pullSucceeds then (t, none) else (t, some 1)

/-- Modelled from the spec: `clone_repository` lives in
`strix/interface/utils.py`, which is not under `src/`.  Per spec section 4.7,
clone-to-workspace is a hard gate that aborts the process with exit code 1 on
failure, so a failing clone stops the loop at the first repository target. -/
def run_clones (ok : Bool) : List String → List Event × Option Nat
  | [] => ([], none)
  | r :: rs =>
    if ok then
      let rest := run_clones ok rs
      (Event.cloneRepo r :: rest.1, rest.2)
    else ([Event.cloneRepo r], some 1)

/-- Abbreviation for the conjunction of the two container gates of `main`
(`check_docker_installed` and `pull_docker_image`) passing. -/
def dockerGatesPass (w : World) : Bool :=
  w.dockerInstalled && w.engineReachable && (w.imagePresent || w.pullSucceeds)

/-- `main` from `main.py`, from the point where the run configuration is in
hand: `check_docker_installed`, then `pull_docker_image`, then
`validate_environment`, then `warm_up_llm`, then the repository-clone loop,
then the scan engine, then the exit-code selection (exit 2 exactly when the
run was non-interactive and the tracer reports findings; otherwise the
process finishes with exit 0). -/
def run_main (w : World) (args : Args) : List Event × Nat :=
  let t0 : List Event := [Event.dockerCliCheck]
  if w.dockerInstalled then
    let p := pull_docker_image_model w
    let t1 := t0 ++ p.1
    match p.2 with
    | some c => (t1, c)
    | none =>
      let t2 := t1 ++ [Event.credentialValidation]
      if validate_exits w.env then (t2, 1)
      else
        let t3 := t2 ++ [Event.llmRequest]
        if w.llmOk then
          let c := run_clones w.cloneSucceeds (repo_urls args)
          let t4 := t3 ++ c.1
          match c.2 with
          | some code => (t4, code)
          | none =>
            let t5 := t4 ++ [Event.scanEngine]
            if args.non_interactive ∧ findings w ≠ [] then (t5, 2) else (t5, 0)
        else (t3, 1)
  else (t0, 1)

/-! ## Multi-target collection loop (`show_interactive_menu_async` in `menu.py`) -/

/-- Outcome of the multi-target collection loop. -/
inductive MultiOutcome where
  | collected (targets : List String)
  | exitZero
  | pending
  deriving Repr, DecidableEq

/-- The multi-target collection loop of `show_interactive_menu_async` for the
multi-target scenarios.  Each script entry is one prompt result: `none` for a
cancelled prompt (escape), `some s` for a submitted, stripped value.  A
cancel with targets collected breaks with the partial list; a cancel with no
targets exits the process with code 0; a blank submission breaks with the
collected list when non-empty and is ignored otherwise; any other submission
is appended.  `pending` models a run whose script ends while the loop still
prompts. -/
def collect_multi_targets : List (Option String) → List String → MultiOutcome
  | [], _ => .pending
  | none :: _, targets =>
    if targets.isEmpty then .exitZero else .collected targets
  | some t :: rest, targets =>
    if t = "" then
      if targets.isEmpty then collect_multi_targets rest targets
      else .collected targets
    else collect_multi_targets rest (targets ++ [t])

/-! ## Settings save (`ConfigurationApp.action_save` in `menu.py`) -/

/-- Python `str.strip()`: remove leading and trailing whitespace. -/
def strip (s : String) : String :=
  ⟨((s.data.dropWhile Char.isWhitespace).reverse.dropWhile Char.isWhitespace).reverse⟩

/-- The keys of `ConfigurationApp._inputs`, in dict insertion order (the
order the input fields are composed). -/
def config_input_keys : List String :=
  ["STRIX_LLM", "LLM_API_KEY", "PERPLEXITY_API_KEY", "LLM_API_BASE"]

/-- One iteration of the `action_save` loop over the input fields: a
non-empty stripped value is saved; a blank required field falls back to the
stored value when that is non-empty; a blank optional field is skipped. -/
def save_field (inputs : String → String) (file : List (String × String))
    (upd : List (String × String)) (key : String) : List (String × String) :=
  let value := strip (inputs key)
  if value ≠ "" then upd ++ [(key, value)]
  else if key = "STRIX_LLM" ∨ key = "LLM_API_KEY" then
    if get_value file key ≠ "" then upd ++ [(key, get_value file key)] else upd
  else upd

/-- The `updates` dict built by `ConfigurationApp.action_save`. -/
def action_save_updates (inputs : String → String) (file : List (String × String)) :
    List (String × String) :=
  config_input_keys.foldl (save_field inputs file) []

/-- The persisted record after `action_save` runs
`ConfigManager.update_config` on the updates it built. -/
def action_save_file (inputs : String → String) (file : List (String × String)) :
    List (String × String) :=
  update_config file (action_save_updates inputs file)

/-! ## Concrete inputs used by witnesses and counterexamples -/

/-- Environment with `STRIX_LLM` unset and a credential set. -/
def env_no_llm : String → String :=
  fun k => if k = "LLM_API_KEY" then "sk-test" else ""

/-- Fully configured environment. -/
def env_ok : String → String :=
  fun k =>
    if k = "STRIX_LLM" then "openai/gpt-5"
    else if k = "LLM_API_KEY" then "sk-test" else ""

/-- World whose only defect is the unset `STRIX_LLM` (image absent, so a pull
happens). -/
def w_no_llm : World :=
  { env := env_no_llm, dockerInstalled := true, engineReachable := true,
    imagePresent := false, pullSucceeds := true, llmOk := true,
    cloneSucceeds := true, tracer := none }

/-- Healthy world whose scan produces one finding. -/
def w_finding : World :=
  { env := env_ok, dockerInstalled := true, engineReachable := true,
    imagePresent := true, pullSucceeds := true, llmOk := true,
    cloneSucceeds := true, tracer := some ⟨["sql injection"], true⟩ }

/-- Healthy world whose scan produces no findings. -/
def w_clean : World :=
  { env := env_ok, dockerInstalled := true, engineReachable := true,
    imagePresent := true, pullSucceeds := true, llmOk := true,
    cloneSucceeds := true, tracer := some ⟨[], true⟩ }

/-- Arguments with no targets, non-interactive. -/
def args_none : Args := { targets_info := [], non_interactive := true }

/-- Arguments with one repository target, non-interactive. -/
def args_repo : Args :=
  { targets_info := [⟨"repository", "https://github.com/acme/app.git"⟩],
    non_interactive := true }

/-- All-blank settings input fields. -/
def inputs_blank : String → String := fun _ => ""

/-- Stored settings record used by the C10 witness. -/
def file_c10 : List (String × String) :=
  [("STRIX_LLM", "openai/gpt-5"), ("LLM_API_KEY", "sk-test"),
    ("PERPLEXITY_API_KEY", "pplx-1")]

/-! ## Association-list lemmas -/

theorem getLast_append (d e : List (String × String)) (k : String) :
    getLast (d ++ e) k =
      match getLast e k with
      | some v => some v
      | none => getLast d k := by
  induction d with
  | nil => cases h : getLast e k <;> simp [getLast, h]
  | cons kv t ih =>
    cases h : getLast e k <;> simp [getLast, h] at ih ⊢ <;>
      cases h2 : getLast t k <;> simp [ih, h2]

theorem getLast_map_replace (d : List (String × String)) (k0 v0 k : String) :
    getLast (d.map (fun kv => if kv.1 = k0 then (k0, v0) else kv)) k =
      if k0 = k then (if k0 ∈ keys d then some v0 else none) else getLast d k := by
  induction d with
  | nil => simp [getLast, keys]
  | cons kv t ih =>
    simp only [List.map_cons, getLast, ih]
    by_cases h2 : k0 = k
    · subst h2
      by_cases h3 : k0 ∈ List.map Prod.fst t
      · simp [keys, h3]
      · by_cases h1 : kv.1 = k0
        · simp [keys, h1, h3]
        · have h1x : ¬ k0 = kv.1 := fun h => h1 h.symm
          simp [keys, h1, h1x, h3]
    · by_cases h1 : kv.1 = k0
      · cases h4 : getLast t k <;> simp [h1, h2, h4, keys, getLast]
      · cases h4 : getLast t k <;> simp [h1, h2, h4, getLast]

theorem getLast_upsert (d : List (String × String)) (k0 v0 k : String) :
    getLast (upsert d k0 v0) k = if k0 = k then some v0 else getLast d k := by
  unfold upsert
  by_cases hm : k0 ∈ keys d
  · simp [hm, getLast_map_replace]
  · simp only [hm, if_false]
    rw [getLast_append]
    by_cases h2 : k0 = k <;> simp [getLast, h2]

theorem getLast_foldl_upsert (l init : List (String × String)) (k : String) :
    getLast (l.foldl (fun d kv => upsert d kv.1 kv.2) init) k =
      match getLast l k with
      | some v => some v
      | none => getLast init k := by
  induction l generalizing init with
  | nil => cases h : getLast init k <;> simp [getLast, h]
  | cons kv t ih =>
    rw [List.foldl_cons, ih, getLast_upsert]
    cases h : getLast t k <;> by_cases h2 : kv.1 = k <;> simp [getLast, h, h2]

theorem keys_nil : keys [] = [] := rfl

theorem keys_cons (kv : String × String) (t : List (String × String)) :
    keys (kv :: t) = kv.1 :: keys t := rfl

theorem keys_upsert (d : List (String × String)) (k v : String) :
    keys (upsert d k v) = if k ∈ keys d then keys d else keys d ++ [k] := by
  by_cases h : k ∈ keys d
  · rw [upsert, if_pos h, if_pos h]
    simp only [keys, List.map_map]
    apply List.map_congr_left
    intro kv _
    by_cases hk : kv.1 = k <;> simp [hk]
  · rw [upsert, if_neg h, if_neg h]
    simp [keys]

theorem nodup_keys_upsert (d : List (String × String)) (k v : String)
    (h : (keys d).Nodup) : (keys (upsert d k v)).Nodup := by
  rw [keys_upsert]
  by_cases hm : k ∈ keys d
  · simpa [hm]
  · simpa [hm, List.nodup_append] using h

theorem nodup_keys_foldl_upsert (l init : List (String × String))
    (h : (keys init).Nodup) :
    (keys (l.foldl (fun d kv => upsert d kv.1 kv.2) init)).Nodup := by
  induction l generalizing init with
  | nil => exact h
  | cons kv t ih => exact ih _ (nodup_keys_upsert _ _ _ h)

theorem load_config_nodup (file : List (String × String)) :
    (keys (load_config file)).Nodup :=
  nodup_keys_foldl_upsert file [] (by simp [keys])

theorem lookup_eq_none_iff (d : List (String × String)) (k : String) :
    lookup d k = none ↔ k ∉ keys d := by
  induction d with
  | nil => simp [lookup, keys_nil]
  | cons kv t ih =>
    by_cases h : kv.1 = k
    · simp [lookup, keys_cons, h]
    · have hx : ¬ k = kv.1 := fun hq => h hq.symm
      simp [lookup, keys_cons, h, hx, ih]

theorem getLast_eq_none_iff (d : List (String × String)) (k : String) :
    getLast d k = none ↔ k ∉ keys d := by
  induction d with
  | nil => simp [getLast, keys_nil]
  | cons kv t ih =>
    cases hg : getLast t k with
    | some v =>
      have hm : k ∈ keys t := by
        by_contra hk
        rw [ih.mpr hk] at hg
        exact Option.noConfusion hg
      simp [getLast, hg, keys_cons, hm]
    | none =>
      have hk : k ∉ keys t := ih.mp hg
      by_cases h : kv.1 = k
      · simp [getLast, hg, keys_cons, h]
      · have hx : ¬ k = kv.1 := fun hq => h hq.symm
        simp [getLast, hg, keys_cons, h, hx, hk]

theorem lookup_eq_getLast_of_nodup (d : List (String × String)) (k : String)
    (h : (keys d).Nodup) : lookup d k = getLast d k := by
  induction d with
  | nil => rfl
  | cons kv t ih =>
    have h0 : kv.1 ∉ keys t ∧ (keys t).Nodup := by
      rw [keys_cons] at h
      exact List.nodup_cons.mp h
    by_cases hk : kv.1 = k
    · subst hk
      have hg : getLast t kv.1 = none := (getLast_eq_none_iff t kv.1).mpr h0.1
      simp [lookup, getLast, hg]
    · cases hg : getLast t k <;> simp [lookup, getLast, hk, hg, ih h0.2]

theorem load_config_lookup (file : List (String × String)) (k : String) :
    lookup (load_config file) k = getLast file k := by
  rw [lookup_eq_getLast_of_nodup _ _ (load_config_nodup file)]
  unfold load_config
  rw [getLast_foldl_upsert]
  cases h : getLast file k <;> simp [getLast, h]

theorem load_update_lookup (file U : List (String × String)) (k : String) :
    lookup (load_config (update_config file U)) k =
      match getLast U k with
      | some v => some v
      | none => getLast file k := by
  rw [load_config_lookup]
  unfold update_config save_config dict_update
  rw [getLast_foldl_upsert, getLast_foldl_upsert]
  have hl : getLast (load_config file) k = getLast file k := by
    rw [← lookup_eq_getLast_of_nodup _ _ (load_config_nodup file)]
    exact load_config_lookup file k
  rw [hl]
  cases h : getLast U k <;> cases h2 : getLast file k <;> simp [h, h2]

theorem applyFold_eq (d : List (String × String)) (env : String → String)
    (k : String) (h : (keys d).Nodup) :
    (d.foldl (fun e kv => if kv.2 ≠ "" then update_env e kv.1 kv.2 else e) env) k =
      match lookup d k with
      | some v => if v = "" then env k else v
      | none => env k := by
  induction d generalizing env with
  | nil => simp [lookup]
  | cons kv t ih =>
    have h0 : kv.1 ∉ keys t ∧ (keys t).Nodup := by
      rw [keys_cons] at h
      exact List.nodup_cons.mp h
    rw [List.foldl_cons, ih _ h0.2]
    by_cases hk : kv.1 = k
    · subst hk
      have hl : lookup t kv.1 = none := (lookup_eq_none_iff t kv.1).mpr h0.1
      by_cases hv : kv.2 = "" <;> simp [lookup, hl, hv, update_env]
    · have hx : ¬ k = kv.1 := fun hq => hk hq.symm
      cases hl : lookup t k with
      | some v =>
        by_cases hv : v = "" <;> by_cases hv2 : kv.2 = "" <;>
          simp [lookup, hk, hl, hv, hv2, update_env, hx]
      | none =>
        by_cases hv2 : kv.2 = "" <;> simp [lookup, hk, hl, hv2, update_env, hx]

/-! ## Claim C4 -/

/-- C4, counterexample: saving a record that maps `LLM_API_KEY` to the empty
string writes that empty value into the backing store — `save_config` applies
`set_key` to every pair, with no non-empty filter, so the claim's "saving
never writes an empty value into the file" is false. -/
theorem c4_counterexample_save_empty_value :
    lookup (save_config [] [("LLM_API_KEY", "")]) "LLM_API_KEY" = some "" ∧
      ("LLM_API_KEY", "") ∈ save_config [] [("LLM_API_KEY", "")] := by
  constructor <;> decide

/-- C4 (amended): `apply_to_environment` copies a key into the process
environment if and only if its loaded value is non-empty, and leaves every
other environment entry unchanged; the persistence half of the original
claim is false, since `save_config` also writes empty values into the file. -/
theorem c4_apply_environment_nonempty_only (file : List (String × String))
    (env : String → String) (k : String) :
    apply_to_environment file env k =
      match lookup (load_config file) k with
      | some v => if v = "" then env k else v
      | none => env k := by
  unfold apply_to_environment
  exact applyFold_eq _ env k (load_config_nodup file)

/-! ## Claim C5 -/

/-- C5: a partial save followed by a load reads back exactly the merge of the
previously-persisted record with the partial update — every key of the update
maps to its updated value, and every persisted key absent from the update
retains its previous value. -/
theorem c5_save_load_merge (file P : List (String × String)) (k : String) :
    lookup (load_config (update_config file P)) k =
      merged_lookup (load_config file) P k := by
  rw [load_update_lookup]
  unfold merged_lookup
  rw [load_config_lookup]

/-! ## Claim C3 -/

theorem missing_required_eq (env : String → String) :
    (validate_environment env).missing_required =
      (if env "STRIX_LLM" = "" then ["STRIX_LLM"] else []) ++
        (if env "LLM_API_KEY" = "" ∧ has_base_url env = false then ["LLM_API_KEY"]
          else []) := by
  unfold validate_environment
  by_cases h1 : env "STRIX_LLM" = "" <;>
    by_cases h2 : env "LLM_API_KEY" = "" ∧ has_base_url env = false <;>
      simp [h1, h2]

theorem missing_optional_key_iff (env : String → String) :
    "LLM_API_KEY" ∈ (validate_environment env).missing_optional ↔
      (env "LLM_API_KEY" = "" ∧ has_base_url env = true) := by
  unfold validate_environment
  by_cases h1 : env "LLM_API_KEY" = "" ∧ has_base_url env = true <;>
    by_cases h2 : has_base_url env = false <;>
      by_cases h3 : env "PERPLEXITY_API_KEY" = "" <;>
        simp [h1, h2, h3]

/-- C3: `validate_environment` treats the credential `LLM_API_KEY` as
optional, never required, whenever at least one of the four endpoint-override
variables is non-empty (each of the four suffices on its own), treats it as
required otherwise, and exits with code 1 exactly when a required variable
(`STRIX_LLM`, or `LLM_API_KEY` with no override set) is missing. -/
theorem c3_credential_required_iff_no_base_url (env : String → String) :
    (has_base_url env = true →
        "LLM_API_KEY" ∉ (validate_environment env).missing_required)
    ∧ (env "LLM_API_KEY" = "" → has_base_url env = true →
        "LLM_API_KEY" ∈ (validate_environment env).missing_optional)
    ∧ (env "LLM_API_KEY" = "" → has_base_url env = false →
        "LLM_API_KEY" ∈ (validate_environment env).missing_required)
    ∧ (env "LLM_API_BASE" ≠ "" →
        "LLM_API_KEY" ∉ (validate_environment env).missing_required)
    ∧ (env "OPENAI_API_BASE" ≠ "" →
        "LLM_API_KEY" ∉ (validate_environment env).missing_required)
    ∧ (env "LITELLM_BASE_URL" ≠ "" →
        "LLM_API_KEY" ∉ (validate_environment env).missing_required)
    ∧ (env "OLLAMA_API_BASE" ≠ "" →
        "LLM_API_KEY" ∉ (validate_environment env).missing_required)
    ∧ (validate_exits env = true ↔
        (env "STRIX_LLM" = "" ∨
          (env "LLM_API_KEY" = "" ∧ has_base_url env = false))) := by
  have hopt : ∀ hb : has_base_url env = true,
      "LLM_API_KEY" ∉ (validate_environment env).missing_required := by
    intro hb
    rw [missing_required_eq]
    by_cases h1 : env "STRIX_LLM" = "" <;> simp [h1, hb]
  refine ⟨hopt, ?_, ?_, ?_, ?_, ?_, ?_, ?_⟩
  · intro hk hb
    exact (missing_optional_key_iff env).mpr ⟨hk, hb⟩
  · intro hk hb
    rw [missing_required_eq]
    by_cases h1 : env "STRIX_LLM" = "" <;> simp [h1, hk, hb]
  · intro hb
    exact hopt (by simp [has_base_url, bne_iff_ne, hb])
  · intro hb
    exact hopt (by simp [has_base_url, bne_iff_ne, hb])
  · intro hb
    exact hopt (by simp [has_base_url, bne_iff_ne, hb])
  · intro hb
    exact hopt (by simp [has_base_url, bne_iff_ne, hb])
  · unfold validate_exits
    rw [missing_required_eq]
    by_cases h1 : env "STRIX_LLM" = "" <;>
      by_cases h2 : env "LLM_API_KEY" = "" ∧ has_base_url env = false <;>
        simp [h1, h2]

/-- C3, witness: with only `OLLAMA_API_BASE` set and no credential, the
credential is reported optional and validation does not exit. -/
theorem c3_credential_required_iff_no_base_url_witness :
    "LLM_API_KEY" ∉
        (validate_environment (fun k =>
          if k = "STRIX_LLM" then "m" else
          if k = "OLLAMA_API_BASE" then "http://localhost:11434" else "")).missing_required
    ∧ "LLM_API_KEY" ∈
        (validate_environment (fun k =>
          if k = "STRIX_LLM" then "m" else
          if k = "OLLAMA_API_BASE" then "http://localhost:11434" else "")).missing_optional := by
  have h := c3_credential_required_iff_no_base_url (fun k =>
    if k = "STRIX_LLM" then "m" else
    if k = "OLLAMA_API_BASE" then "http://localhost:11434" else "")
  exact ⟨h.2.2.2.2.2.2.1 (by decide), h.2.1 (by decide) (by decide)⟩

/-! ## Claim C8 -/

/-- C8: the endpoint applied to `litellm.api_base` by the warm-up probe is
exactly the first non-empty variable among `LLM_API_BASE`, `OPENAI_API_BASE`,
`LITELLM_BASE_URL`, `OLLAMA_API_BASE`, in that order; later non-empty
overrides are ignored, and nothing is applied when all four are empty. -/
theorem c8_endpoint_precedence (env : String → String) :
    applied_api_base env =
      first_nonempty [env "LLM_API_BASE", env "OPENAI_API_BASE",
        env "LITELLM_BASE_URL", env "OLLAMA_API_BASE"] := by
  unfold applied_api_base warm_up_api_base or_str
  by_cases h1 : env "LLM_API_BASE" = "" <;>
    by_cases h2 : env "OPENAI_API_BASE" = "" <;>
      by_cases h3 : env "LITELLM_BASE_URL" = "" <;>
        by_cases h4 : env "OLLAMA_API_BASE" = "" <;>
          simp [first_nonempty, h1, h2, h3, h4]

/-! ## Claim C6 -/

/-- C6: in the multi-target collection loop, a blank submission with no
target collected is ignored and prompting continues; a blank submission
after at least one target terminates the loop with the collected list;
cancellation after at least one target finalizes with the partial list; and
cancellation with zero targets exits the process with code 0. -/
theorem c6_multi_target_loop (rest : List (Option String)) (targets : List String) :
    (collect_multi_targets (some "" :: rest) [] = collect_multi_targets rest [])
    ∧ (targets ≠ [] →
        collect_multi_targets (some "" :: rest) targets =
          MultiOutcome.collected targets)
    ∧ (targets ≠ [] →
        collect_multi_targets (none :: rest) targets =
          MultiOutcome.collected targets)
    ∧ collect_multi_targets (none :: rest) [] = MultiOutcome.exitZero := by
  refine ⟨?_, ?_, ?_, ?_⟩
  · simp [collect_multi_targets]
  · intro h
    cases targets with
    | nil => exact absurd rfl h
    | cons a t => simp [collect_multi_targets]
  · intro h
    cases targets with
    | nil => exact absurd rfl h
    | cons a t => simp [collect_multi_targets]
  · simp [collect_multi_targets]

/-- C6, witness: with one target already collected, a blank submission and a
cancellation both finalize with the partial list. -/
theorem c6_multi_target_loop_witness :
    collect_multi_targets [some "", some "x"] ["https://a.example"] =
        MultiOutcome.collected ["https://a.example"]
    ∧ collect_multi_targets [none] ["https://a.example"] =
        MultiOutcome.collected ["https://a.example"] := by
  have h1 := c6_multi_target_loop [some "x"] ["https://a.example"]
  have h2 := c6_multi_target_loop [] ["https://a.example"]
  exact ⟨h1.2.1 (by decide), h2.2.2.1 (by decide)⟩

/-! ## Claim C10 -/

theorem getLast_save_field_ne (inputs : String → String)
    (file upd : List (String × String)) (key k : String) (h : key ≠ k) :
    getLast (save_field inputs file upd key) k = getLast upd k := by
  unfold save_field
  by_cases h1 : strip (inputs key) ≠ ""
  · rw [if_pos h1, getLast_append]
    simp [getLast, h]
  · rw [if_neg h1]
    by_cases h2 : key = "STRIX_LLM" ∨ key = "LLM_API_KEY"
    · rw [if_pos h2]
      by_cases h3 : get_value file key ≠ ""
      · rw [if_pos h3, getLast_append]
        simp [getLast, h]
      · rw [if_neg h3]
    · rw [if_neg h2]

theorem getLast_save_field_blank_required (inputs : String → String)
    (file upd : List (String × String)) (key : String)
    (h1 : strip (inputs key) = "")
    (h2 : key = "STRIX_LLM" ∨ key = "LLM_API_KEY")
    (h3 : get_value file key ≠ "") :
    getLast (save_field inputs file upd key) key = some (get_value file key) := by
  unfold save_field
  rw [if_neg (not_not_intro h1), if_pos h2, if_pos h3, getLast_append]
  simp [getLast]

theorem save_field_blank_optional (inputs : String → String)
    (file upd : List (String × String)) (key : String)
    (h1 : strip (inputs key) = "")
    (h2 : ¬(key = "STRIX_LLM" ∨ key = "LLM_API_KEY")) :
    save_field inputs file upd key = upd := by
  unfold save_field
  rw [if_neg (not_not_intro h1), if_neg h2]

/-- C10: a settings save never erases a previously-persisted non-empty value
of a required key — a blank `STRIX_LLM` or `LLM_API_KEY` field with a
non-empty stored value carries the stored value into the update unchanged —
and blank optional fields are omitted from the update entirely, leaving
their persisted values untouched. -/
theorem c10_save_preserves_required (inputs : String → String)
    (file : List (String × String)) :
    (strip (inputs "STRIX_LLM") = "" → get_value file "STRIX_LLM" ≠ "" →
      lookup (load_config (action_save_file inputs file)) "STRIX_LLM" =
        some (get_value file "STRIX_LLM"))
    ∧ (strip (inputs "LLM_API_KEY") = "" → get_value file "LLM_API_KEY" ≠ "" →
      lookup (load_config (action_save_file inputs file)) "LLM_API_KEY" =
        some (get_value file "LLM_API_KEY"))
    ∧ (strip (inputs "PERPLEXITY_API_KEY") = "" →
      lookup (load_config (action_save_file inputs file)) "PERPLEXITY_API_KEY" =
        lookup (load_config file) "PERPLEXITY_API_KEY")
    ∧ (strip (inputs "LLM_API_BASE") = "" →
      lookup (load_config (action_save_file inputs file)) "LLM_API_BASE" =
        lookup (load_config file) "LLM_API_BASE") := by
  have hU : action_save_updates inputs file =
      save_field inputs file
        (save_field inputs file
          (save_field inputs file
            (save_field inputs file [] "STRIX_LLM") "LLM_API_KEY")
          "PERPLEXITY_API_KEY") "LLM_API_BASE" := rfl
  refine ⟨?_, ?_, ?_, ?_⟩
  · intro h1 h3
    unfold action_save_file
    rw [load_update_lookup]
    have hg : getLast (action_save_updates inputs file) "STRIX_LLM" =
        some (get_value file "STRIX_LLM") := by
      rw [hU, getLast_save_field_ne _ _ _ _ _ (by decide),
        getLast_save_field_ne _ _ _ _ _ (by decide),
        getLast_save_field_ne _ _ _ _ _ (by decide),
        getLast_save_field_blank_required _ _ _ _ h1 (Or.inl rfl) h3]
    rw [hg]
  · intro h1 h3
    unfold action_save_file
    rw [load_update_lookup]
    have hg : getLast (action_save_updates inputs file) "LLM_API_KEY" =
        some (get_value file "LLM_API_KEY") := by
      rw [hU, getLast_save_field_ne _ _ _ _ _ (by decide),
        getLast_save_field_ne _ _ _ _ _ (by decide),
        getLast_save_field_blank_required _ _ _ _ h1 (Or.inr rfl) h3]
    rw [hg]
  · intro h1
    unfold action_save_file
    rw [load_update_lookup]
    have hg : getLast (action_save_updates inputs file) "PERPLEXITY_API_KEY" =
        none := by
      rw [hU, getLast_save_field_ne _ _ _ _ _ (by decide),
        save_field_blank_optional _ _ _ _ h1 (by decide),
        getLast_save_field_ne _ _ _ _ _ (by decide),
        getLast_save_field_ne _ _ _ _ _ (by decide)]
      rfl
    rw [hg, load_config_lookup]
  · intro h1
    unfold action_save_file
    rw [load_update_lookup]
    have hg : getLast (action_save_updates inputs file) "LLM_API_BASE" =
        none := by
      rw [hU, save_field_blank_optional _ _ _ _ h1 (by decide),
        getLast_save_field_ne _ _ _ _ _ (by decide),
        getLast_save_field_ne _ _ _ _ _ (by decide),
        getLast_save_field_ne _ _ _ _ _ (by decide)]
      rfl
    rw [hg, load_config_lookup]

/-- C10, witness: with every input field blank over a stored record holding
non-empty values, the required keys keep their stored values and the blank
optional key keeps its persisted value. -/
theorem c10_save_preserves_required_witness :
    lookup (load_config (action_save_file inputs_blank file_c10)) "STRIX_LLM" =
        some "openai/gpt-5"
    ∧ lookup (load_config (action_save_file inputs_blank file_c10)) "LLM_API_KEY" =
        some "sk-test"
    ∧ lookup (load_config (action_save_file inputs_blank file_c10)) "PERPLEXITY_API_KEY" =
        lookup (load_config file_c10) "PERPLEXITY_API_KEY" := by
  have h := c10_save_preserves_required inputs_blank file_c10
  refine ⟨?_, ?_, h.2.2.1 (by decide)⟩
  · have h1 := h.1 (by decide) (by decide)
    rw [h1]
    decide
  · have h1 := h.2.1 (by decide) (by decide)
    rw [h1]
    decide

/-! ## Pipeline helper lemmas -/

theorem validate_exits_of_no_strix (env : String → String)
    (h : env "STRIX_LLM" = "") : validate_exits env = true := by
  unfold validate_exits
  rw [missing_required_eq env]
  by_cases h2 : env "LLM_API_KEY" = "" ∧ has_base_url env = false <;> simp [h, h2]

theorem run_clones_true (urls : List String) :
    run_clones true urls = (urls.map Event.cloneRepo, none) := by
  induction urls with
  | nil => rfl
  | cons r rs ih => simp [run_clones, ih]

theorem run_clones_false_nil : run_clones false [] = ([], none) := rfl

theorem run_clones_false_cons (r : String) (rs : List String) :
    run_clones false (r :: rs) = ([Event.cloneRepo r], some 1) := rfl

/-! ## Claim C1 -/

/-- C1, counterexample: with `STRIX_LLM` unset but everything else healthy,
the run does exit with code 1, yet the Docker existence check and the image
pull both occur before that exit — `main` calls `check_docker_installed` and
`pull_docker_image` before `validate_environment`, so the claim's "no Docker
existence check, no image pull occurs before the exit" is false. -/
theorem c1_counterexample_docker_before_exit :
    env_no_llm "STRIX_LLM" = ""
    ∧ (run_main w_no_llm args_none).2 = 1
    ∧ Event.imageExistsCheck ∈ (run_main w_no_llm args_none).1
    ∧ Event.pullStream ∈ (run_main w_no_llm args_none).1 := by
  refine ⟨by decide, by decide, by decide, by decide⟩

/-- C1 (amended): when `STRIX_LLM` is unset the process exits with code 1
before any LLM request and before the scan engine runs — but only after the
container-engine checks and any needed image pull, which `main` performs
first. -/
theorem c1_exit_before_llm_request (w : World) (args : Args)
    (h : w.env "STRIX_LLM" = "") :
    (run_main w args).2 = 1
    ∧ Event.llmRequest ∉ (run_main w args).1
    ∧ Event.scanEngine ∉ (run_main w args).1 := by
  have hv : validate_exits w.env = true := validate_exits_of_no_strix _ h
  unfold run_main pull_docker_image_model check_docker_connection_model
  cases hd : w.dockerInstalled <;>
    cases he : w.engineReachable <;>
      cases hp : w.imagePresent <;>
        cases hs : w.pullSucceeds <;>
          simp [hv]

/-- C1, witness for the amended theorem at a concrete healthy world lacking
only `STRIX_LLM`. -/
theorem c1_exit_before_llm_request_witness :
    (run_main w_no_llm args_none).2 = 1
    ∧ Event.llmRequest ∉ (run_main w_no_llm args_none).1 := by
  have h := c1_exit_before_llm_request w_no_llm args_none (by decide)
  exact ⟨h.1, h.2.1⟩

/-! ## Claim C9 -/

/-- C9: when the image is already present locally, `pull_docker_image`
returns right after the existence check — no pull stream is opened and no
pull-progress state is created or rendered, neither inside the provisioning
step nor anywhere in the whole run. -/
theorem c9_image_present_no_pull (w : World) (args : Args)
    (he : w.engineReachable = true) (hp : w.imagePresent = true) :
    (pull_docker_image_model w).1 = [Event.dockerConnect, Event.imageExistsCheck]
    ∧ (pull_docker_image_model w).2 = none
    ∧ Event.pullStream ∉ (run_main w args).1
    ∧ Event.progressState ∉ (run_main w args).1 := by
  unfold run_main pull_docker_image_model check_docker_connection_model
  cases hd : w.dockerInstalled <;>
    cases hv : validate_exits w.env <;>
      cases hl : w.llmOk <;>
        cases hc : w.cloneSucceeds <;>
          cases hu : repo_urls args <;>
            by_cases hn : args.non_interactive = true ∧ ¬findings w = [] <;>
              simp [he, hp, hv, hu, hn, run_clones_true, run_clones_false_nil,
                run_clones_false_cons, List.mem_map]

/-- C9, witness at a concrete world with the image present. -/
theorem c9_image_present_no_pull_witness :
    (pull_docker_image_model w_clean).1 =
        [Event.dockerConnect, Event.imageExistsCheck]
    ∧ Event.pullStream ∉ (run_main w_clean args_repo).1 := by
  have h := c9_image_present_no_pull w_clean args_repo (by decide) (by decide)
  exact ⟨h.1, h.2.2.1⟩

theorem pull_model_no_late_events (w : World) :
    Event.scanEngine ∉ (pull_docker_image_model w).1
    ∧ Event.llmRequest ∉ (pull_docker_image_model w).1
    ∧ Event.credentialValidation ∉ (pull_docker_image_model w).1 := by
  unfold pull_docker_image_model check_docker_connection_model
  cases he : w.engineReachable <;> cases hp : w.imagePresent <;>
    cases hs : w.pullSucceeds <;> simp

theorem pull_model_exit_one (w : World) (c : Nat)
    (h : (pull_docker_image_model w).2 = some c) : c = 1 := by
  unfold pull_docker_image_model check_docker_connection_model at h
  cases he : w.engineReachable <;> cases hp : w.imagePresent <;>
    cases hs : w.pullSucceeds <;> simp [he, hp, hs] at h <;> omega

theorem run_clones_events (ok : Bool) (urls : List String) :
    ∀ e ∈ (run_clones ok urls).1, ∃ u, u ∈ urls ∧ e = Event.cloneRepo u := by
  cases ok
  · cases urls with
    | nil => simp [run_clones]
    | cons r rs =>
      intro e he
      simp [run_clones] at he
      exact ⟨r, by simp, by simp [he]⟩
  · intro e he
    simp [run_clones_true, List.mem_map] at he
    obtain ⟨u, hu, hue⟩ := he
    exact ⟨u, hu, hue.symm⟩

theorem run_clones_exit_one (ok : Bool) (urls : List String) (c : Nat)
    (h : (run_clones ok urls).2 = some c) : c = 1 := by
  cases urls with
  | nil => cases ok <;> simp [run_clones] at h
  | cons r rs =>
    cases ok <;> simp [run_clones, run_clones_true] at h
    omega

theorem run_clones_no_scan (ok : Bool) (urls : List String) :
    Event.scanEngine ∉ (run_clones ok urls).1 := by
  intro hmem
  obtain ⟨u, _, hue⟩ := run_clones_events ok urls Event.scanEngine hmem
  exact Event.noConfusion hue

/-! ## Claim C7 -/

/-- C7: the process exits with code 2 exactly when the run is
non-interactive, the scan engine ran to completion, and the tracer reports at
least one vulnerability finding; a completed non-interactive run with zero
findings exits 0, and no pre-flight failure path (where the engine never
runs) can produce exit code 2. -/
theorem c7_exit_two_iff_findings (w : World) (args : Args) :
    ((run_main w args).2 = 2 ↔
      (args.non_interactive = true ∧ Event.scanEngine ∈ (run_main w args).1 ∧
        findings w ≠ []))
    ∧ (args.non_interactive = true → Event.scanEngine ∈ (run_main w args).1 →
        findings w = [] → (run_main w args).2 = 0) := by
  have hns := (pull_model_no_late_events w).1
  simp only [run_main]
  cases hd : w.dockerInstalled
  · simp
  · cases hpm : (pull_docker_image_model w).2 with
    | some c =>
      have hc := pull_model_exit_one w c hpm
      subst hc
      simp [hns]
    | none =>
      cases hv : validate_exits w.env
      · cases hl : w.llmOk
        · simp [hns]
        · cases hcr : (run_clones w.cloneSucceeds (repo_urls args)).2 with
          | some code =>
            have hcc := run_clones_exit_one _ _ _ hcr
            subst hcc
            simp [hns, run_clones_no_scan]
          | none =>
            by_cases hna : args.non_interactive = true <;>
              by_cases hf : findings w = [] <;>
                simp [hns, hna, hf, run_clones_no_scan]
      · simp [hns]

/-- C7, witness: a healthy non-interactive run with one finding exits 2, and
the same run with no findings exits 0. -/
theorem c7_exit_two_iff_findings_witness :
    (run_main w_finding args_repo).2 = 2
    ∧ (run_main w_clean args_repo).2 = 0 := by
  have h1 := c7_exit_two_iff_findings w_finding args_repo
  have h2 := c7_exit_two_iff_findings w_clean args_repo
  exact ⟨h1.1.mpr ⟨by decide, by decide, by decide⟩,
    h2.2 (by decide) (by decide) (by decide)⟩

/-! ## Claim C2 -/

theorem pull_model_trace_cases (w : World) :
    (pull_docker_image_model w).1 = [Event.dockerConnect]
    ∨ (pull_docker_image_model w).1 = [Event.dockerConnect, Event.imageExistsCheck]
    ∨ (pull_docker_image_model w).1 =
        [Event.dockerConnect, Event.imageExistsCheck, Event.progressState,
          Event.pullStream] := by
  unfold pull_docker_image_model check_docker_connection_model
  cases w.engineReachable <;> cases w.imagePresent <;> cases w.pullSucceeds <;> simp

theorem pull_model_engine_unreachable (w : World)
    (h : w.engineReachable = false) :
    pull_docker_image_model w = ([Event.dockerConnect], some 1) := by
  unfold pull_docker_image_model check_docker_connection_model
  simp [h]

theorem pull_model_pull_fails (w : World) (he : w.engineReachable = true)
    (hp : w.imagePresent = false) (hs : w.pullSucceeds = false) :
    pull_docker_image_model w =
      ([Event.dockerConnect, Event.imageExistsCheck, Event.progressState,
        Event.pullStream], some 1) := by
  unfold pull_docker_image_model check_docker_connection_model
  simp [he, hp, hs]

theorem dockerGatesPass_installed (w : World) (h : dockerGatesPass w = true) :
    w.dockerInstalled = true := by
  unfold dockerGatesPass at h
  cases hd : w.dockerInstalled <;> simp_all

theorem pull_model_gates_pass (w : World) (h : dockerGatesPass w = true) :
    (pull_docker_image_model w).2 = none
    ∧ ((pull_docker_image_model w).1 =
          [Event.dockerConnect, Event.imageExistsCheck]
        ∨ (pull_docker_image_model w).1 =
          [Event.dockerConnect, Event.imageExistsCheck, Event.progressState,
            Event.pullStream]) := by
  unfold dockerGatesPass at h
  unfold pull_docker_image_model check_docker_connection_model
  cases he : w.engineReachable <;> cases hp : w.imagePresent <;>
    cases hs : w.pullSucceeds <;> simp_all

theorem run_clones_stage (ok : Bool) (urls : List String) :
    ∀ e ∈ (run_clones ok urls).1, stage e = 4 := by
  intro e he
  obtain ⟨u, _, hue⟩ := run_clones_events ok urls e he
  simp [hue, stage]

theorem run_clones_pairwise (ok : Bool) (urls : List String) :
    List.Pairwise (fun a b => stage a ≤ stage b) (run_clones ok urls).1 := by
  apply List.pairwise_of_forall_mem_list
  intro a ha b hb
  rw [run_clones_stage ok urls a ha, run_clones_stage ok urls b hb]

theorem run_clones_pass (ok : Bool) (urls : List String)
    (h : ok = true ∨ urls = []) : (run_clones ok urls).2 = none := by
  rcases h with h | h
  · subst h
    simp [run_clones_true]
  · subst h
    cases ok <;> rfl


theorem stage_dockerCliCheck : stage Event.dockerCliCheck = 0 := rfl

theorem stage_dockerConnect : stage Event.dockerConnect = 0 := rfl

theorem stage_imageExistsCheck : stage Event.imageExistsCheck = 1 := rfl

theorem stage_progressState : stage Event.progressState = 1 := rfl

theorem stage_pullStream : stage Event.pullStream = 1 := rfl

theorem stage_credentialValidation : stage Event.credentialValidation = 2 := rfl

theorem stage_llmRequest : stage Event.llmRequest = 3 := rfl

theorem stage_cloneRepo (u : String) : stage (Event.cloneRepo u) = 4 := rfl

theorem stage_scanEngine : stage Event.scanEngine = 5 := rfl
theorem run_clones_mem_urls (ok : Bool) (urls : List String) (u : String)
    (h : Event.cloneRepo u ∈ (run_clones ok urls).1) : u ∈ urls := by
  obtain ⟨v, hv, hve⟩ := run_clones_events ok urls _ h
  injection hve with h2
  subst h2
  exact hv

/-- C2: the pre-flight gates run strictly in the order container-engine
availability, image provisioning, credential validation, warm-up probe,
repository cloning (for repository targets only), scan engine; every event
trace is ordered by stage, each gate failure aborts with exit code 1, no
event of a later gate appears after an earlier gate fails, and when every
gate passes the scan engine runs and the exit code is not 1. -/
theorem c2_gate_order (w : World) (args : Args) :
    List.Pairwise (fun a b => stage a ≤ stage b) (run_main w args).1
    ∧ (∀ u, Event.cloneRepo u ∈ (run_main w args).1 → u ∈ repo_urls args)
    ∧ (w.dockerInstalled = false →
        (run_main w args).2 = 1 ∧ ∀ e ∈ (run_main w args).1, stage e ≤ 0)
    ∧ (w.dockerInstalled = true → w.engineReachable = false →
        (run_main w args).2 = 1 ∧ ∀ e ∈ (run_main w args).1, stage e ≤ 0)
    ∧ (w.dockerInstalled = true → w.engineReachable = true →
        w.imagePresent = false → w.pullSucceeds = false →
        (run_main w args).2 = 1 ∧ ∀ e ∈ (run_main w args).1, stage e ≤ 1)
    ∧ (dockerGatesPass w = true → validate_exits w.env = true →
        (run_main w args).2 = 1 ∧ ∀ e ∈ (run_main w args).1, stage e ≤ 2)
    ∧ (dockerGatesPass w = true → validate_exits w.env = false →
        w.llmOk = false →
        (run_main w args).2 = 1 ∧ ∀ e ∈ (run_main w args).1, stage e ≤ 3)
    ∧ (dockerGatesPass w = true → validate_exits w.env = false →
        w.llmOk = true → w.cloneSucceeds = false → repo_urls args ≠ [] →
        (run_main w args).2 = 1 ∧ ∀ e ∈ (run_main w args).1, stage e ≤ 4)
    ∧ (dockerGatesPass w = true → validate_exits w.env = false →
        w.llmOk = true → (w.cloneSucceeds = true ∨ repo_urls args = []) →
        Event.scanEngine ∈ (run_main w args).1 ∧ (run_main w args).2 ≠ 1) := by
  refine ⟨?_, ?_, ?_, ?_, ?_, ?_, ?_, ?_, ?_⟩
  · simp only [run_main]
    cases hd : w.dockerInstalled
    · simp
    · cases hpm : (pull_docker_image_model w).2 with
      | some c =>
        rcases pull_model_trace_cases w with h1 | h1 | h1 <;> simp [h1] <;> decide
      | none =>
        cases hv : validate_exits w.env
        · cases hl : w.llmOk
          · rcases pull_model_trace_cases w with h1 | h1 | h1 <;>
              simp [h1] <;> decide
          · have hcp := run_clones_pairwise w.cloneSucceeds (repo_urls args)
            have hcs := run_clones_stage w.cloneSucceeds (repo_urls args)
            cases hcr : (run_clones w.cloneSucceeds (repo_urls args)).2 with
            | some code =>
              rcases pull_model_trace_cases w with h1 | h1 | h1 <;>
                simp [h1, List.pairwise_append, List.pairwise_cons, hcp, hcs,
                  stage_dockerCliCheck, stage_dockerConnect,
                  stage_imageExistsCheck, stage_progressState, stage_pullStream,
                  stage_credentialValidation, stage_llmRequest,
                  stage_cloneRepo, stage_scanEngine] <;>
                (repeat' apply And.intro) <;>
                (intro a ha
                 rw [hcs a ha]
                 omega)
            | none =>
              rcases pull_model_trace_cases w with h1 | h1 | h1 <;>
                by_cases hn : args.non_interactive = true ∧ ¬findings w = [] <;>
                  simp [h1, hn, List.pairwise_append, List.pairwise_cons, hcp,
                    hcs, stage_dockerCliCheck, stage_dockerConnect,
                    stage_imageExistsCheck, stage_progressState,
                    stage_pullStream, stage_credentialValidation,
                    stage_llmRequest, stage_cloneRepo, stage_scanEngine] <;>
                  (repeat' apply And.intro) <;>
                  (intro a ha
                   first
                   | (rw [hcs a ha]
                      omega)
                   | (rcases ha with ha2 | rfl
                      · rw [hcs a ha2]
                        omega
                      · simp [stage]))
        · rcases pull_model_trace_cases w with h1 | h1 | h1 <;>
            simp [h1] <;> decide
  · simp only [run_main]
    cases hd : w.dockerInstalled
    · simp
    · cases hpm : (pull_docker_image_model w).2 with
      | some c =>
        intro u hu
        rcases pull_model_trace_cases w with h1 | h1 | h1 <;> simp [h1] at hu
      | none =>
        cases hv : validate_exits w.env
        · cases hl : w.llmOk
          · intro u hu
            rcases pull_model_trace_cases w with h1 | h1 | h1 <;> simp [h1] at hu
          · cases hcr : (run_clones w.cloneSucceeds (repo_urls args)).2 with
            | some code =>
              intro u hu
              rcases pull_model_trace_cases w with h1 | h1 | h1 <;>
                simp [h1] at hu <;>
                exact run_clones_mem_urls _ _ _ hu
            | none =>
              intro u hu
              rcases pull_model_trace_cases w with h1 | h1 | h1 <;>
                by_cases hn : args.non_interactive = true ∧ ¬findings w = [] <;>
                  simp [h1, hn] at hu <;>
                  exact run_clones_mem_urls _ _ _ hu
        · intro u hu
          rcases pull_model_trace_cases w with h1 | h1 | h1 <;> simp [h1] at hu
  · intro h
    simp [run_main, h, stage]
  · intro hd he
    simp [run_main, hd, pull_model_engine_unreachable w he, stage]
  · intro hd he hp hs
    simp [run_main, hd, pull_model_pull_fails w he hp hs, stage]
  · intro hg hv
    have hd := dockerGatesPass_installed w hg
    obtain ⟨hp2, hp1⟩ := pull_model_gates_pass w hg
    rcases hp1 with h1 | h1 <;> simp [run_main, hd, hp2, h1, hv, stage]
  · intro hg hv hl
    have hd := dockerGatesPass_installed w hg
    obtain ⟨hp2, hp1⟩ := pull_model_gates_pass w hg
    rcases hp1 with h1 | h1 <;> simp [run_main, hd, hp2, h1, hv, hl, stage]
  · intro hg hv hl hc hru
    have hd := dockerGatesPass_installed w hg
    obtain ⟨hp2, hp1⟩ := pull_model_gates_pass w hg
    cases hu : repo_urls args with
    | nil => exact absurd hu hru
    | cons r rs =>
      rcases hp1 with h1 | h1 <;>
        simp [run_main, hd, hp2, h1, hv, hl, hc, hu, run_clones_false_cons,
          stage]
  · intro hg hv hl hc
    have hd := dockerGatesPass_installed w hg
    obtain ⟨hp2, hp1⟩ := pull_model_gates_pass w hg
    have hcn : (run_clones w.cloneSucceeds (repo_urls args)).2 = none :=
      run_clones_pass _ _ hc
    rcases hp1 with h1 | h1 <;>
      by_cases hn : args.non_interactive = true ∧ ¬findings w = [] <;>
        simp [run_main, hd, hp2, h1, hv, hl, hcn, hn]

/-- C2, witness: in a healthy world whose only defect is the unset
`STRIX_LLM`, the credential-validation gate exits 1 and no event past that
stage appears. -/
theorem c2_gate_order_witness :
    (run_main w_no_llm args_none).2 = 1
    ∧ ∀ e ∈ (run_main w_no_llm args_none).1, stage e ≤ 2 := by
  have h := c2_gate_order w_no_llm args_none
  exact h.2.2.2.2.2.1 (by decide) (by decide)
